import Mathlib

/-!
# Phong scene (`src/Phong/Phong/main.cpp`)

A shallow embedding of the parts of `main.cpp` that carry the program's logic:
`Clamp`, the `Input` flags with `KeyCallback` and `HandleInput`, the frame
loop's sequence of shader calls, its animation and model matrices, its time
management, and the `CubeVertices` table.

Conventions of the embedding.

* A C++ `float` is a rational number (`ℚ`), without NaN and infinity.  Outside
  the time-management block arithmetic is exact and decimal literals have their
  decimal value (`0.1` is `1/10`).
* In the time-management block, where clock readings of any size are stored in
  `float` variables, every conversion to `float` and every `float` operation is
  followed by the rounding `fl`, a parameter; `toFloat` is the rounding of IEEE
  754 binary32 (nearest, ties to even), the program as compiled, and the
  identity is exact arithmetic.
* `sin` and `cos` come from the C library; the functions that use them take
  them as parameters.
* Calls into collaborators whose code is not in `main.cpp` (`Camera`,
  `Shader`, GLFW, OpenGL) are either parameters or recorded as a trace of calls.
-/

namespace Phong

/-! ## `Clamp` (main.cpp:24-27) -/

/-- `float Clamp(float x, float min, float max)`:
`return x < min ? min : x > max ? max : x;` -/
def Clamp (x min max : ℚ) : ℚ :=
  if x < min then min else if x > max then max else x

/-- Modelled from the spec: the fragment shader `phong_material_texture.frag` that
evaluates the spotlight is not under `src/`.  Section 4.2 of the spec gives
`intensity = clamp((theta - OuterCutOff) / (InnerCutOff - OuterCutOff), 0, 1)`;
the clamp used here is the program's own `Clamp`. -/
def SpotIntensity (theta InnerCutOff OuterCutOff : ℚ) : ℚ :=
  Clamp ((theta - OuterCutOff) / (InnerCutOff - OuterCutOff)) 0 1

/-! ## Input state and engine state (main.cpp:34-51) -/

/-- `struct Input`: eight booleans. -/
structure Input where
  MoveLeft : Bool
  MoveRight : Bool
  MoveUp : Bool
  MoveDown : Bool
  LookLeft : Bool
  LookRight : Bool
  LookUp : Bool
  LookDown : Bool
  deriving DecidableEq, Repr

/-- `struct EngineState`.  The two pointers `mInput` and `mCamera` are the values
they point to; `C` is the state of the `Camera` object (`camera.hpp`). -/
structure EngineState (C : Type) where
  mInput : Input
  mCamera : C
  mShadingMode : Nat
  mDrawDebugLines : Bool
  mDT : ℚ

/-- The part of a `GLFWwindow` the callbacks touch: the user pointer (set to
`&State` at main.cpp:160) and the should-close flag. -/
structure GLFWwindow (C : Type) where
  UserPointer : EngineState C
  ShouldClose : Bool

/-! ## GLFW constants (values of `GLFW/glfw3.h`) -/

def GLFW_RELEASE : Int := 0
def GLFW_PRESS : Int := 1
def GLFW_REPEAT : Int := 2
def GLFW_KEY_A : Int := 65
def GLFW_KEY_D : Int := 68
def GLFW_KEY_L : Int := 76
def GLFW_KEY_S : Int := 83
def GLFW_KEY_W : Int := 87
def GLFW_KEY_ESCAPE : Int := 256
def GLFW_KEY_RIGHT : Int := 262
def GLFW_KEY_LEFT : Int := 263
def GLFW_KEY_DOWN : Int := 264
def GLFW_KEY_UP : Int := 265

/-! ## `KeyCallback` (main.cpp:73-99) -/

/-- The local `bool IsDown = action == GLFW_PRESS || action == GLFW_REPEAT;`. -/
def IsDown (action : Int) : Bool :=
  action == GLFW_PRESS || action == GLFW_REPEAT

/-- `KeyCallback(window, key, scancode, action, mode)`: the `switch (key)` with
its ten cases; a key with no case leaves everything as it is. -/
def KeyCallback {C : Type} (window : GLFWwindow C) (key _scancode action _mode : Int) :
    GLFWwindow C :=
  let State := window.UserPointer
  let UserInput := State.mInput
  let setInput (i : Input) : GLFWwindow C :=
    { window with UserPointer := { State with mInput := i } }
  if key = GLFW_KEY_A then setInput { UserInput with MoveLeft := IsDown action }
  else if key = GLFW_KEY_D then setInput { UserInput with MoveRight := IsDown action }
  else if key = GLFW_KEY_W then setInput { UserInput with MoveUp := IsDown action }
  else if key = GLFW_KEY_S then setInput { UserInput with MoveDown := IsDown action }
  else if key = GLFW_KEY_RIGHT then setInput { UserInput with LookLeft := IsDown action }
  else if key = GLFW_KEY_LEFT then setInput { UserInput with LookRight := IsDown action }
  else if key = GLFW_KEY_UP then setInput { UserInput with LookUp := IsDown action }
  else if key = GLFW_KEY_DOWN then setInput { UserInput with LookDown := IsDown action }
  else if key = GLFW_KEY_L then
    if IsDown action then
      { window with
        UserPointer := { State with mDrawDebugLines := xor State.mDrawDebugLines true } }
    else window
  else if key = GLFW_KEY_ESCAPE then { window with ShouldClose := true }
  else window

/-! ## `HandleInput` (main.cpp:113-126) -/

/-- The two `Camera` methods `HandleInput` calls.  `camera.hpp` is not part of
`main.cpp`, so they are parameters: each takes its three `float` arguments and
the camera it is called on, and gives the camera after the call. -/
structure CameraOps (C : Type) where
  Move : ℚ → ℚ → ℚ → C → C
  Rotate : ℚ → ℚ → ℚ → C → C

/-- `HandleInput(EngineState* state)`: eight `if (flag) FPSCamera->...` statements
in source order, every call with `state->mDT`. -/
def HandleInput {C : Type} (ops : CameraOps C) (state : EngineState C) : EngineState C :=
  let UserInput := state.mInput
  let c0 := state.mCamera
  let c1 := if UserInput.MoveLeft then ops.Move (-1) 0 state.mDT c0 else c0
  let c2 := if UserInput.MoveRight then ops.Move 1 0 state.mDT c1 else c1
  let c3 := if UserInput.MoveDown then ops.Move 0 (-1) state.mDT c2 else c2
  let c4 := if UserInput.MoveUp then ops.Move 0 1 state.mDT c3 else c3
  let c5 := if UserInput.LookLeft then ops.Rotate 1 0 state.mDT c4 else c4
  let c6 := if UserInput.LookRight then ops.Rotate (-1) 0 state.mDT c5 else c5
  let c7 := if UserInput.LookDown then ops.Rotate 0 (-1) state.mDT c6 else c6
  let c8 := if UserInput.LookUp then ops.Rotate 0 1 state.mDT c7 else c7
  { state with mCamera := c8 }

/-- A call of a `Camera` method, with its arguments. -/
inductive CameraCall where
  | Move (a b dt : ℚ)
  | Rotate (a b dt : ℚ)
  deriving DecidableEq, Repr

/-- A camera that only records the calls made on it, oldest first. -/
def traceOps : CameraOps (List CameraCall) where
  Move a b dt log := log ++ [CameraCall.Move a b dt]
  Rotate a b dt log := log ++ [CameraCall.Rotate a b dt]

/-- Performs a recorded call on a camera. -/
def CameraCall.run {C : Type} (ops : CameraOps C) (cam : C) : CameraCall → C
  | CameraCall.Move a b dt => ops.Move a b dt cam
  | CameraCall.Rotate a b dt => ops.Rotate a b dt cam

/-- The call sequence as the specification words it: one call per set flag, in
the order MoveLeft, MoveRight, MoveDown, MoveUp, LookLeft, LookRight, LookDown,
LookUp, all with the same `dt`. -/
def specCalls (i : Input) (dt : ℚ) : List CameraCall :=
  (if i.MoveLeft then [CameraCall.Move (-1) 0 dt] else []) ++
  (if i.MoveRight then [CameraCall.Move 1 0 dt] else []) ++
  (if i.MoveDown then [CameraCall.Move 0 (-1) dt] else []) ++
  (if i.MoveUp then [CameraCall.Move 0 1 dt] else []) ++
  (if i.LookLeft then [CameraCall.Rotate 1 0 dt] else []) ++
  (if i.LookRight then [CameraCall.Rotate (-1) 0 dt] else []) ++
  (if i.LookDown then [CameraCall.Rotate 0 (-1) dt] else []) ++
  (if i.LookUp then [CameraCall.Rotate 0 1 dt] else [])

/-! ## Shader calls of `main` (main.cpp:246-280 and 308-397) -/

/-- The two `Shader` objects `main` constructs (main.cpp:246, 250). -/
inductive Shader where
  | ColorShader
  | PhongShaderMaterialTexture
  deriving DecidableEq, Repr

/-- The calls of `main` that read or change which program is active:
`glUseProgram(id)` and the uniform setters of `shader.hpp`, each with the
`Shader` object it is called on (and the uniform's name, where it takes one).
The values uploaded play no part and are left out. -/
inductive GLCall where
  | glUseProgram (id : Nat)
  | SetUniform1f (s : Shader) (name : String)
  | SetUniform3f (s : Shader) (name : String)
  | SetUniform1i (s : Shader) (name : String)
  | SetProjection (s : Shader)
  | SetView (s : Shader)
  | SetModel (s : Shader)
  deriving DecidableEq, Repr

/-- The setup block, main.cpp:251-280, with `GetId` the program id of each
`Shader` object. -/
def setupCalls (GetId : Shader → Nat) : List GLCall :=
  [ .glUseProgram (GetId .PhongShaderMaterialTexture),
    .SetUniform3f .PhongShaderMaterialTexture "uDirLight.Position",
    .SetUniform3f .PhongShaderMaterialTexture "uDirLight.Direction",
    .SetUniform3f .PhongShaderMaterialTexture "uDirLight.Ka",
    .SetUniform3f .PhongShaderMaterialTexture "uDirLight.Kd",
    .SetUniform3f .PhongShaderMaterialTexture "uDirLight.Ks",
    .SetUniform3f .PhongShaderMaterialTexture "uPointLight.Ka",
    .SetUniform3f .PhongShaderMaterialTexture "uPointLight.Kd",
    .SetUniform3f .PhongShaderMaterialTexture "uPointLight.Ks",
    .SetUniform1f .PhongShaderMaterialTexture "uPointLight.Kc",
    .SetUniform1f .PhongShaderMaterialTexture "uPointLight.Kl",
    .SetUniform1f .PhongShaderMaterialTexture "uPointLight.Kq",
    .SetUniform3f .PhongShaderMaterialTexture "uSpotlight.Position",
    .SetUniform3f .PhongShaderMaterialTexture "uSpotlight.Direction",
    .SetUniform3f .PhongShaderMaterialTexture "uSpotlight.Ka",
    .SetUniform3f .PhongShaderMaterialTexture "uSpotlight.Kd",
    .SetUniform3f .PhongShaderMaterialTexture "uSpotlight.Ks",
    .SetUniform1f .PhongShaderMaterialTexture "uSpotlight.Kc",
    .SetUniform1f .PhongShaderMaterialTexture "uSpotlight.Kl",
    .SetUniform1f .PhongShaderMaterialTexture "uSpotlight.Kq",
    .SetUniform1f .PhongShaderMaterialTexture "uSpotlight.InnerCutOff",
    .SetUniform1f .PhongShaderMaterialTexture "uSpotlight.OuterCutOff",
    .SetUniform1i .PhongShaderMaterialTexture "uMaterial.Kd",
    .SetUniform1i .PhongShaderMaterialTexture "uMaterial.Ks",
    .SetUniform1f .PhongShaderMaterialTexture "uMaterial.Shininess",
    .glUseProgram 0 ]

/-- `Shader* CurrentShader = &PhongShaderMaterialTexture;` (main.cpp:296); the
loop never assigns it again. -/
def CurrentShader : Shader := Shader.PhongShaderMaterialTexture

/-- One iteration of the frame loop, main.cpp:308-397, in source order: every
`glUseProgram` and every setter call, each with its line.  The texture, vertex
array and draw calls in between do not select a program and are left out, as is
`Penguin.Render()` (main.cpp:364, `model.hpp`), which comes after the last
setter made before `glUseProgram(ColorShader.GetId())`. -/
def frameCalls (GetId : Shader → Nat) : List GLCall :=
  [ .glUseProgram (GetId CurrentShader),                  -- 308
    .SetProjection CurrentShader,                         -- 309
    .SetView CurrentShader,                               -- 310
    .SetUniform3f CurrentShader "uViewPos",               -- 311
    .SetUniform3f CurrentShader "uSpotlight.Position",    -- 315
    .SetModel CurrentShader,                              -- 325
    .SetModel CurrentShader,                              -- 339
    .SetModel CurrentShader,                              -- 349
    .SetModel CurrentShader,                              -- 363
    .glUseProgram (GetId .ColorShader),                    -- 367
    .SetProjection .ColorShader,                           -- 368
    .SetView .ColorShader,                                 -- 369
    .SetModel .ColorShader,                                -- 372
    .SetUniform3f CurrentShader "uPointLight.Position",   -- 376
    .SetModel .ColorShader,                                -- 381
    .SetUniform3f .ColorShader "uColor",                   -- 383
    .SetModel .ColorShader,                                -- 391
    .SetUniform3f .ColorShader "uColor",                   -- 392
    .glUseProgram 0 ]                                     -- 397

/-- The `Shader` object a setter call is made on; `none` for `glUseProgram`. -/
def GLCall.shader : GLCall → Option Shader
  | GLCall.glUseProgram _ => none
  | GLCall.SetUniform1f s _ => some s
  | GLCall.SetUniform3f s _ => some s
  | GLCall.SetUniform1i s _ => some s
  | GLCall.SetProjection s => some s
  | GLCall.SetView s => some s
  | GLCall.SetModel s => some s

/-- Runs a call sequence with the active program id as state (`active` is the
most recent `glUseProgram` argument) and collects, in order, the setter calls
made on a `Shader` whose id is not the active program. -/
def violations (GetId : Shader → Nat) : Nat → List GLCall → List GLCall
  | _, [] => []
  | _, GLCall.glUseProgram id :: rest => violations GetId id rest
  | active, c :: rest =>
    match c.shader with
    | some s =>
      if GetId s = active then violations GetId active rest
      else c :: violations GetId active rest
    | none => violations GetId active rest

/-- The active program id after a call sequence. -/
def activeAfter : Nat → List GLCall → Nat
  | active, [] => active
  | _, GLCall.glUseProgram id :: rest => activeAfter id rest
  | active, _ :: rest => activeAfter active rest

/-- The setup block followed by `n` iterations of the frame loop. -/
def mainCalls (GetId : Shader → Nat) (n : Nat) : List GLCall :=
  setupCalls GetId ++ (List.replicate n (frameCalls GetId)).flatten

/-! ## Vectors and matrices of GLM -/

namespace glm

/-- `glm::vec3`. -/
structure vec3 where
  x : ℚ
  y : ℚ
  z : ℚ
  deriving DecidableEq, Repr

/-- `glm::vec4`. -/
structure vec4 where
  x : ℚ
  y : ℚ
  z : ℚ
  w : ℚ
  deriving DecidableEq, Repr

/-- `glm::mat4`: four columns, `c0 = m[0]`, ..., `c3 = m[3]` (GLM is column-major;
the translation of an affine transform is the column `m[3]`). -/
structure mat4 where
  c0 : vec4
  c1 : vec4
  c2 : vec4
  c3 : vec4
  deriving DecidableEq, Repr

/-- `v * s` for a `vec4` and a scalar. -/
def vec4.smul (v : vec4) (s : ℚ) : vec4 := ⟨v.x * s, v.y * s, v.z * s, v.w * s⟩

/-- `a + b` for two `vec4`. -/
def vec4.add (a b : vec4) : vec4 := ⟨a.x + b.x, a.y + b.y, a.z + b.z, a.w + b.w⟩

/-- `a - b` for two `vec3`. -/
def vec3.sub (a b : vec3) : vec3 := ⟨a.x - b.x, a.y - b.y, a.z - b.z⟩

/-- `v * s` for a `vec3` and a scalar. -/
def vec3.smul (v : vec3) (s : ℚ) : vec3 := ⟨v.x * s, v.y * s, v.z * s⟩

/-- `glm::dot` on `vec3`. -/
def dot (a b : vec3) : ℚ := a.x * b.x + a.y * b.y + a.z * b.z

/-- `glm::cross`. -/
def cross (a b : vec3) : vec3 :=
  ⟨a.y * b.z - b.y * a.z, a.z * b.x - b.z * a.x, a.x * b.y - b.x * a.y⟩

/-- `glm::mat4(1.0f)`: the identity. -/
def mat4.identity : mat4 := ⟨⟨1, 0, 0, 0⟩, ⟨0, 1, 0, 0⟩, ⟨0, 0, 1, 0⟩, ⟨0, 0, 0, 1⟩⟩

/-- Modelled from the spec: `glm::translate` belongs to the GLM headers
(`glm/gtc/matrix_transform.hpp`), which are not under `src/`.  The spec
(sections 4.5 and 8) has each model matrix built by a translate whose vector is
the matrix's translation component; this is GLM's definition,
`Result = m; Result[3] = m[0] * v[0] + m[1] * v[1] + m[2] * v[2] + m[3];`. -/
def translate (m : mat4) (v : vec3) : mat4 :=
  { m with c3 := ((m.c0.smul v.x).add (m.c1.smul v.y)).add ((m.c2.smul v.z).add m.c3) }

/-- Modelled from the spec: `glm::scale` belongs to the GLM headers, which are not
under `src/`.  The spec (section 4.5) applies the scale after the translate;
this is GLM's definition, `Result[0] = m[0] * v[0]; Result[1] = m[1] * v[1];
Result[2] = m[2] * v[2]; Result[3] = m[3];`. -/
def scale (m : mat4) (v : vec3) : mat4 :=
  ⟨m.c0.smul v.x, m.c1.smul v.y, m.c2.smul v.z, m.c3⟩

/-- The translation component of a transform: `m[3]` without its `w`. -/
def mat4.translation (m : mat4) : vec3 := ⟨m.c3.x, m.c3.y, m.c3.z⟩

end glm

/-! ## Animation and model matrices of one frame (main.cpp:287-289, 314-376) -/

/-- `float Distance = 4.0f;` (main.cpp:289). -/
def Distance : ℚ := 4

/-- What one iteration of the frame loop computes from `Angle`: the positions and
the three cube model matrices, under the names they have in `main`, and `Angle`
as the iteration leaves it. -/
structure Frame where
  SpotLightPosition : glm.vec3
  Angle : ℚ
  IslandPosition : glm.vec3
  ModelMatrix : glm.mat4
  IslandPosition1 : glm.vec3
  ModelMatrix1 : glm.mat4
  ModelMatrix2 : glm.mat4
  PenguinMove : glm.vec3
  PointLightPosition : glm.vec3
  deriving DecidableEq, Repr

/-- One iteration of the frame loop, main.cpp:314-376, the statements that
compute positions and the cube model matrices, in source order.  `Angle` is the
value on entry and `mDT` is `State.mDT`. -/
def frame (sin cos : ℚ → ℚ) (Angle mDT : ℚ) : Frame :=
  let SpotLightPosition : glm.vec3 := ⟨Distance * (1 / 10), 2, 2 + Distance * sin Angle⟩
  let Angle := Angle + mDT
  let IslandPosition : glm.vec3 := ⟨Distance * (1 / 10), -(19 / 10), 4 + Distance * sin Angle⟩
  let ModelMatrix := glm.translate glm.mat4.identity IslandPosition
  let ModelMatrix := glm.scale ModelMatrix ⟨8, 4 / 10, 32 / 10⟩
  let IslandPosition1 : glm.vec3 := ⟨Distance * cos Angle, -(19 / 10), -4 + Distance * (2 / 10)⟩
  let ModelMatrix1 := glm.translate glm.mat4.identity IslandPosition1
  let ModelMatrix1 := glm.scale ModelMatrix1 ⟨7, 4 / 10, 28 / 10⟩
  let ModelMatrix2 := glm.translate glm.mat4.identity ⟨2 / 10, -(28 / 10), 4⟩
  let ModelMatrix2 := glm.scale ModelMatrix2 ⟨20, 12 / 10, 18⟩
  let PenguinMove : glm.vec3 := ⟨Distance * (1 / 10), -(15 / 10), 4 + Distance * sin Angle⟩
  let PointLightPosition : glm.vec3 := ⟨0, 55 / 10, 2⟩
  { SpotLightPosition := SpotLightPosition
    Angle := Angle
    IslandPosition := IslandPosition
    ModelMatrix := ModelMatrix
    IslandPosition1 := IslandPosition1
    ModelMatrix1 := ModelMatrix1
    ModelMatrix2 := ModelMatrix2
    PenguinMove := PenguinMove
    PointLightPosition := PointLightPosition }

/-! ## Time management (main.cpp:31, 290-292, 307, 400-408) -/

/-- Rounding of a real number to the nearest integer, ties to the even one (the
IEEE 754 default rounding). -/
def roundHalfEven (m : ℚ) : ℤ :=
  if m - ⌊m⌋ < 1 / 2 then ⌊m⌋
  else if 1 / 2 < m - ⌊m⌋ then ⌊m⌋ + 1
  else if ⌊m⌋ % 2 = 0 then ⌊m⌋ else ⌊m⌋ + 1

/-- The binary exponent `e` of the `float` grid around `a ≥ 0`: `2^e ≤ a < 2^(e+1)`
for a normal value, and `-126` (the smallest normal exponent) below that. -/
def floatExponent (a : ℚ) : ℤ := max (Int.log 2 a) (-126)

/-- The `float` (IEEE 754 binary32, 24 significant bits) nearest to `a ≥ 0`: `a`
rounded, ties to even, to a multiple of `2^(e - 23)`.  Values above `FLT_MAX`
(which round to infinity) are outside the embedding. -/
def toFloatAbs (a : ℚ) : ℚ :=
  roundHalfEven (a / 2 ^ (floatExponent a - 23)) * 2 ^ (floatExponent a - 23)

/-- The `float` nearest to `q`: the conversion of a `double` to `float`, and the
rounding of the exact result of a `float` operation. -/
def toFloat (q : ℚ) : ℚ := if q < 0 then -toFloatAbs (-q) else toFloatAbs q

/-- `const float TargetFPS = 60.0f;` -/
def TargetFPS : ℚ := 60

/-- `float TargetFrameTime = 1.0f / TargetFPS;`, with `fl` the rounding of a real
value to `float`: `toFloat` is the program as compiled (`float` is binary32), the
identity is exact arithmetic. -/
def TargetFrameTime (fl : ℚ → ℚ) : ℚ := fl (1 / TargetFPS)

/-- The conversion `(int)` of a `float`: truncation toward zero. -/
def toInt (q : ℚ) : Int := if 0 ≤ q then ⌊q⌋ else ⌈q⌉

/-- What the time-management block leaves behind: the argument of the
`sleep_for(std::chrono::milliseconds(DeltaMS))` it made (`none` when it made
none), the final `EndTime`, and `State.mDT`. -/
structure Pacing where
  DeltaMS : Option Int
  EndTime : ℚ
  mDT : ℚ
  deriving DecidableEq, Repr

/-- `EndTime = glfwGetTime(); float WorkTime = EndTime - StartTime;`
(main.cpp:401-402): the `double` reading is stored in a `float`, and the
difference of the two `float`s is a `float`. -/
def WorkTime (fl : ℚ → ℚ) (StartTime glfwGetTime : ℚ) : ℚ :=
  fl (fl glfwGetTime - StartTime)

/-- `int DeltaMS = (int)((TargetFrameTime - WorkTime) * 1000.0f);` (main.cpp:404):
a `float` subtraction, a `float` multiplication, and the truncation. -/
def DeltaMS (fl : ℚ → ℚ) (StartTime glfwGetTime : ℚ) : Int :=
  toInt (fl (fl (TargetFrameTime fl - WorkTime fl StartTime glfwGetTime) * 1000))

/-- The time-management block, main.cpp:401-408.  `fl` rounds a real value to
`float`.  `StartTime` is the `float` stored at main.cpp:307; `glfwGetTime` is the
`double` the clock returns at main.cpp:401, and `glfwGetTimeAfter d` the one it
returns at main.cpp:406, after `sleep_for` of `d` milliseconds has returned. -/
def timeManagement (fl : ℚ → ℚ) (StartTime glfwGetTime : ℚ) (glfwGetTimeAfter : Int → ℚ) :
    Pacing :=
  let EndTime := fl glfwGetTime
  if WorkTime fl StartTime glfwGetTime < TargetFrameTime fl then
    let EndTime := fl (glfwGetTimeAfter (DeltaMS fl StartTime glfwGetTime))
    { DeltaMS := some (DeltaMS fl StartTime glfwGetTime), EndTime := EndTime,
      mDT := fl (EndTime - StartTime) }
  else
    { DeltaMS := none, EndTime := EndTime, mDT := fl (EndTime - StartTime) }

/-! ## The cube vertex table (main.cpp:175-218) -/

/-- `std::vector<float> CubeVertices`: the initialiser list, row for row. -/
def CubeVertices : List ℚ :=
  [
    -- X     Y     Z     NX   NY   NZ   U    V      FRONT SIDE
    -1/2, -1/2,  1/2,  0,  0,  1,  0,  0,   -- L D
     1/2, -1/2,  1/2,  0,  0,  1,  1,  0,   -- R D
    -1/2,  1/2,  1/2,  0,  0,  1,  0,  1,   -- L U
     1/2, -1/2,  1/2,  0,  0,  1,  1,  0,   -- R D
     1/2,  1/2,  1/2,  0,  0,  1,  1,  1,   -- R U
    -1/2,  1/2,  1/2,  0,  0,  1,  0,  1,   -- L U
    -- LEFT SIDE
    -1/2, -1/2, -1/2, -1,  0,  0,  0,  0,   -- L D
    -1/2, -1/2,  1/2, -1,  0,  0,  1,  0,   -- R D
    -1/2,  1/2, -1/2, -1,  0,  0,  0,  1,   -- L U
    -1/2, -1/2,  1/2, -1,  0,  0,  1,  0,   -- R D
    -1/2,  1/2,  1/2, -1,  0,  0,  1,  1,   -- R U
    -1/2,  1/2, -1/2, -1,  0,  0,  0,  1,   -- L U
    -- RIGHT SIDE
     1/2, -1/2,  1/2,  1,  0,  0,  0,  0,   -- L D
     1/2, -1/2, -1/2,  1,  0,  0,  1,  0,   -- R D
     1/2,  1/2,  1/2,  1,  0,  0,  0,  1,   -- L U
     1/2, -1/2, -1/2,  1,  0,  0,  1,  0,   -- R D
     1/2,  1/2, -1/2,  1,  0,  0,  1,  1,   -- R U
     1/2,  1/2,  1/2,  1,  0,  0,  0,  1,   -- L U
    -- BOTTOM SIDE
    -1/2, -1/2, -1/2,  0, -1,  0,  0,  0,   -- L D
     1/2, -1/2, -1/2,  0, -1,  0,  1,  0,   -- R D
    -1/2, -1/2,  1/2,  0, -1,  0,  0,  1,   -- L U
     1/2, -1/2, -1/2,  0, -1,  0,  1,  0,   -- R D
     1/2, -1/2,  1/2,  0, -1,  0,  1,  1,   -- R U
    -1/2, -1/2,  1/2,  0, -1,  0,  0,  1,   -- L U
    -- TOP SIDE
    -1/2,  1/2,  1/2,  0,  1,  0,  0,  0,   -- L D
     1/2,  1/2,  1/2,  0,  1,  0,  1,  0,   -- R D
    -1/2,  1/2, -1/2,  0,  1,  0,  0,  1,   -- L U
     1/2,  1/2,  1/2,  0,  1,  0,  1,  0,   -- R D
     1/2,  1/2, -1/2,  0,  1,  0,  1,  1,   -- R U
    -1/2,  1/2, -1/2,  0,  1,  0,  0,  1,   -- L U
    -- BACK SIDE
     1/2, -1/2, -1/2,  0,  0, -1,  0,  0,   -- L D
    -1/2, -1/2, -1/2,  0,  0, -1,  1,  0,   -- R D
     1/2,  1/2, -1/2,  0,  0, -1,  0,  1,   -- L U
    -1/2, -1/2, -1/2,  0,  0, -1,  1,  0,   -- R D
    -1/2,  1/2, -1/2,  0,  0, -1,  1,  1,   -- R U
     1/2,  1/2, -1/2,  0,  0, -1,  0,  1    -- L U
  ]

/-- Position of vertex `i` of the buffer: attribute 0, three floats at offset 0
of a stride of 8 floats (main.cpp:227). -/
def vertexPosition (i : Nat) : glm.vec3 :=
  ⟨CubeVertices.getD (8 * i) 0, CubeVertices.getD (8 * i + 1) 0, CubeVertices.getD (8 * i + 2) 0⟩

/-- Normal of vertex `i` of the buffer: attribute 1, three floats at offset 3 of
a stride of 8 floats (main.cpp:229). -/
def vertexNormal (i : Nat) : glm.vec3 :=
  ⟨CubeVertices.getD (8 * i + 3) 0, CubeVertices.getD (8 * i + 4) 0,
   CubeVertices.getD (8 * i + 5) 0⟩

/-- Face normal of triangle `t` of a `GL_TRIANGLES` draw (vertices `3t`, `3t+1`,
`3t+2`) for counter-clockwise front faces: `cross(v1 - v0, v2 - v0)`. -/
def faceNormal (t : Nat) : glm.vec3 :=
  glm.cross ((vertexPosition (3 * t + 1)).sub (vertexPosition (3 * t)))
    ((vertexPosition (3 * t + 2)).sub (vertexPosition (3 * t)))

/-- The six unit vectors along the coordinate axes. -/
def axisDirections : List glm.vec3 :=
  [⟨1, 0, 0⟩, ⟨-1, 0, 0⟩, ⟨0, 1, 0⟩, ⟨0, -1, 0⟩, ⟨0, 0, 1⟩, ⟨0, 0, -1⟩]

/-- The vertex count of the cube draws, main.cpp:331, 343, 355:
`CubeVertices.size() / 8`. -/
def cubeDrawCount : Nat := CubeVertices.length / 8

/-- The vertex count of the two light-marker draws, main.cpp:384, 394. -/
def markerDrawCount : Nat := 36

/-! # Theorems -/

/-! ## `Clamp` -/

/-- C7: with `OuterCutOff < InnerCutOff`, the spotlight intensity computed with
`Clamp` is 0 for `theta ≤ OuterCutOff`, 1 for `theta ≥ InnerCutOff`, and the
linear value `(theta - OuterCutOff) / (InnerCutOff - OuterCutOff)` for `theta`
between the two cutoffs. -/
theorem SpotIntensity_piecewise (theta InnerCutOff OuterCutOff : ℚ)
    (h : OuterCutOff < InnerCutOff) :
    (theta ≤ OuterCutOff → SpotIntensity theta InnerCutOff OuterCutOff = 0) ∧
    (InnerCutOff ≤ theta → SpotIntensity theta InnerCutOff OuterCutOff = 1) ∧
    (OuterCutOff ≤ theta → theta ≤ InnerCutOff →
      SpotIntensity theta InnerCutOff OuterCutOff
        = (theta - OuterCutOff) / (InnerCutOff - OuterCutOff)) := by
  have hd : 0 < InnerCutOff - OuterCutOff := sub_pos.mpr h
  unfold SpotIntensity Clamp
  refine ⟨?_, ?_, ?_⟩
  · intro ht
    have hq : (theta - OuterCutOff) / (InnerCutOff - OuterCutOff) ≤ 0 :=
      div_nonpos_of_nonpos_of_nonneg (sub_nonpos.mpr ht) hd.le
    split_ifs with h1 h2
    · rfl
    · exfalso; linarith
    · linarith [not_lt.mp h1]
  · intro ht
    have hq : 1 ≤ (theta - OuterCutOff) / (InnerCutOff - OuterCutOff) := by
      rw [le_div_iff₀ hd]; linarith
    split_ifs with h1 h2
    · exfalso; linarith
    · rfl
    · linarith [not_lt.mp h2]
  · intro hlo hhi
    have hq0 : 0 ≤ (theta - OuterCutOff) / (InnerCutOff - OuterCutOff) :=
      div_nonneg (sub_nonneg.mpr hlo) hd.le
    have hq1 : (theta - OuterCutOff) / (InnerCutOff - OuterCutOff) ≤ 1 := by
      rw [div_le_iff₀ hd]; linarith
    rw [if_neg (not_lt.mpr hq0), if_neg (not_lt.mpr hq1)]

/-- C7, at the spec's scenario: `InnerCutOff = 0.9763`, `OuterCutOff = 0.9537`,
`theta = 0.9659`. -/
theorem SpotIntensity_piecewise_witness :
    (9537 / 10000 : ℚ) < 9763 / 10000 ∧
    SpotIntensity (9659 / 10000) (9763 / 10000) (9537 / 10000) = 61 / 113 := by
  refine ⟨by norm_num, ?_⟩
  rw [(SpotIntensity_piecewise (9659 / 10000) (9763 / 10000) (9537 / 10000)
    (by norm_num)).2.2 (by norm_num) (by norm_num)]
  norm_num

/-! ## `KeyCallback` and `HandleInput` -/

/-- C3: for each of the eight mapped keys, `KeyCallback` writes `IsDown` into the
mapped flag and leaves the other seven flags as they were; `IsDown` is true for
PRESS and REPEAT and false for RELEASE; for a key outside the eight, all eight
flags are unchanged. -/
theorem KeyCallback_sets_mapped_flag {C : Type} (w : GLFWwindow C)
    (scancode action mode : Int) :
    (KeyCallback w GLFW_KEY_A scancode action mode).UserPointer.mInput
      = { w.UserPointer.mInput with MoveLeft := IsDown action } ∧
    (KeyCallback w GLFW_KEY_D scancode action mode).UserPointer.mInput
      = { w.UserPointer.mInput with MoveRight := IsDown action } ∧
    (KeyCallback w GLFW_KEY_W scancode action mode).UserPointer.mInput
      = { w.UserPointer.mInput with MoveUp := IsDown action } ∧
    (KeyCallback w GLFW_KEY_S scancode action mode).UserPointer.mInput
      = { w.UserPointer.mInput with MoveDown := IsDown action } ∧
    (KeyCallback w GLFW_KEY_RIGHT scancode action mode).UserPointer.mInput
      = { w.UserPointer.mInput with LookLeft := IsDown action } ∧
    (KeyCallback w GLFW_KEY_LEFT scancode action mode).UserPointer.mInput
      = { w.UserPointer.mInput with LookRight := IsDown action } ∧
    (KeyCallback w GLFW_KEY_UP scancode action mode).UserPointer.mInput
      = { w.UserPointer.mInput with LookUp := IsDown action } ∧
    (KeyCallback w GLFW_KEY_DOWN scancode action mode).UserPointer.mInput
      = { w.UserPointer.mInput with LookDown := IsDown action } ∧
    (IsDown GLFW_PRESS = true ∧ IsDown GLFW_REPEAT = true ∧ IsDown GLFW_RELEASE = false) ∧
    (∀ key : Int,
      key ∉ [GLFW_KEY_A, GLFW_KEY_D, GLFW_KEY_W, GLFW_KEY_S,
             GLFW_KEY_RIGHT, GLFW_KEY_LEFT, GLFW_KEY_UP, GLFW_KEY_DOWN] →
      (KeyCallback w key scancode action mode).UserPointer.mInput = w.UserPointer.mInput) := by
  refine ⟨rfl, rfl, rfl, rfl, rfl, rfl, rfl, rfl, ⟨rfl, rfl, rfl⟩, ?_⟩
  intro key hkey
  simp only [List.mem_cons, List.mem_singleton, List.not_mem_nil, or_false, not_or] at hkey
  obtain ⟨hA, hD, hW, hS, hR, hL, hU, hDn⟩ := hkey
  unfold KeyCallback
  simp only [hA, hD, hW, hS, hR, hL, hU, hDn, if_false]
  split_ifs <;> rfl

/-- C3, at a concrete window: RELEASE of `A` clears `MoveLeft` and keeps the other
seven flags, and the unmapped key `L` changes no flag. -/
theorem KeyCallback_sets_mapped_flag_witness :
    (KeyCallback (C := Unit)
        ⟨⟨⟨true, true, false, true, false, false, true, false⟩, (), 0, false, 0⟩, false⟩
        GLFW_KEY_A 0 GLFW_RELEASE 0).UserPointer.mInput
      = ⟨false, true, false, true, false, false, true, false⟩ ∧
    (KeyCallback (C := Unit)
        ⟨⟨⟨true, true, false, true, false, false, true, false⟩, (), 0, false, 0⟩, false⟩
        GLFW_KEY_L 0 GLFW_PRESS 0).UserPointer.mInput
      = ⟨true, true, false, true, false, false, true, false⟩ :=
  ⟨(KeyCallback_sets_mapped_flag (C := Unit)
      ⟨⟨⟨true, true, false, true, false, false, true, false⟩, (), 0, false, 0⟩, false⟩
      0 GLFW_RELEASE 0).1,
   (KeyCallback_sets_mapped_flag (C := Unit)
      ⟨⟨⟨true, true, false, true, false, false, true, false⟩, (), 0, false, 0⟩, false⟩
      0 GLFW_PRESS 0).2.2.2.2.2.2.2.2.2 GLFW_KEY_L (by decide)⟩

/-- Folding over a list that holds one call or none. -/
theorem foldl_ite_singleton {α β : Type} (f : α → β → α) (b : Bool) (c : β) (x : α) :
    (if b then [c] else []).foldl f x = if b then f x c else x := by
  cases b <;> rfl

/-- The recording camera appends the calls performed on it. -/
theorem foldl_run_traceOps (l log : List CameraCall) :
    l.foldl (CameraCall.run traceOps) log = log ++ l := by
  induction l generalizing log with
  | nil => simp
  | cons c l ih =>
    rw [List.foldl_cons, ih]
    cases c <;> simp [CameraCall.run, traceOps]

/-- On any camera, `HandleInput` performs the calls of `specCalls` one after the
other. -/
theorem HandleInput_foldl {C : Type} (ops : CameraOps C) (state : EngineState C) :
    (HandleInput ops state).mCamera
      = (specCalls state.mInput state.mDT).foldl (CameraCall.run ops) state.mCamera := by
  simp only [HandleInput, specCalls, List.foldl_append, foldl_ite_singleton, CameraCall.run]

/-- C2: `HandleInput` issues exactly the calls of `specCalls`, in that order, all
with `dt = state.mDT`: on a recording camera the log grows by `specCalls`, on
any camera the result is those calls performed one after the other; with all
flags clear the camera is untouched; the `Input` flags, `mDT` and the other
fields of the state are not modified; with MoveLeft and MoveUp set the calls
are `[Move(-1,0,dt), Move(0,1,dt)]`. -/
theorem HandleInput_issues_specCalls {C : Type} (ops : CameraOps C) (state : EngineState C)
    (traced : EngineState (List CameraCall)) (dt : ℚ) :
    (HandleInput traceOps traced).mCamera
      = traced.mCamera ++ specCalls traced.mInput traced.mDT ∧
    (HandleInput ops state).mCamera
      = (specCalls state.mInput state.mDT).foldl (CameraCall.run ops) state.mCamera ∧
    (state.mInput = ⟨false, false, false, false, false, false, false, false⟩ →
      (HandleInput ops state).mCamera = state.mCamera) ∧
    ((HandleInput ops state).mInput = state.mInput ∧
      (HandleInput ops state).mDT = state.mDT ∧
      (HandleInput ops state).mShadingMode = state.mShadingMode ∧
      (HandleInput ops state).mDrawDebugLines = state.mDrawDebugLines) ∧
    specCalls ⟨true, false, true, false, false, false, false, false⟩ dt
      = [CameraCall.Move (-1) 0 dt, CameraCall.Move 0 1 dt] := by
  refine ⟨?_, ?_, ?_, ⟨rfl, rfl, rfl, rfl⟩, rfl⟩
  · rw [HandleInput_foldl traceOps traced, foldl_run_traceOps]
  · exact HandleInput_foldl ops state
  · intro h0
    simp only [HandleInput, h0, Bool.false_eq_true, if_false]

/-- C2, at a concrete state: MoveLeft and MoveUp set, `mDT = 1/60`, empty log. -/
theorem HandleInput_issues_specCalls_witness :
    (HandleInput traceOps
        ⟨⟨true, false, true, false, false, false, false, false⟩, [], 0, false, 1 / 60⟩).mCamera
      = [CameraCall.Move (-1) 0 (1 / 60), CameraCall.Move 0 1 (1 / 60)] ∧
    (HandleInput traceOps
        ⟨⟨false, false, false, false, false, false, false, false⟩, [], 0, false, 1 / 60⟩).mCamera
      = [] :=
  ⟨((HandleInput_issues_specCalls traceOps
      ⟨⟨true, false, true, false, false, false, false, false⟩, [], 0, false, 1 / 60⟩
      ⟨⟨true, false, true, false, false, false, false, false⟩, [], 0, false, 1 / 60⟩
      (1 / 60)).1).trans rfl,
   (HandleInput_issues_specCalls traceOps
      ⟨⟨false, false, false, false, false, false, false, false⟩, [], 0, false, 1 / 60⟩
      ⟨⟨false, false, false, false, false, false, false, false⟩, [], 0, false, 1 / 60⟩
      (1 / 60)).2.2.1 rfl⟩

/-! ## Shader calls -/

/-- Violations of a concatenation: those of the first part, then those of the
second part run from the program the first part leaves active. -/
theorem violations_append (GetId : Shader → Nat) (l₁ l₂ : List GLCall) (active : Nat) :
    violations GetId active (l₁ ++ l₂)
      = violations GetId active l₁ ++ violations GetId (activeAfter active l₁) l₂ := by
  induction l₁ generalizing active with
  | nil => simp [violations, activeAfter]
  | cons c l ih =>
    cases c
    case glUseProgram id =>
      simp only [List.cons_append, violations, activeAfter]
      exact ih id
    all_goals
      simp only [List.cons_append, violations, activeAfter, GLCall.shader]
      split_ifs <;> simp [ih]

/-- The setup block meets the contract and leaves program 0 active. -/
theorem setupCalls_ok (GetId : Shader → Nat) (active : Nat) :
    violations GetId active (setupCalls GetId) = [] ∧
    activeAfter active (setupCalls GetId) = 0 := by
  simp [setupCalls, violations, activeAfter, GLCall.shader]

/-- One frame: the upload of `uPointLight.Position` is the one setter call made
on a shader that is not active; the frame leaves program 0 active. -/
theorem frameCalls_violation (GetId : Shader → Nat)
    (hdistinct : GetId Shader.ColorShader ≠ GetId Shader.PhongShaderMaterialTexture)
    (active : Nat) :
    violations GetId active (frameCalls GetId)
      = [GLCall.SetUniform3f Shader.PhongShaderMaterialTexture "uPointLight.Position"] ∧
    activeAfter active (frameCalls GetId) = 0 := by
  have h := Ne.symm hdistinct
  simp [frameCalls, violations, activeAfter, GLCall.shader, CurrentShader, h]

/-- C4 (the code breaks the contract): when the two shader programs have
different ids, the setup block makes every setter call on the active shader, but
each iteration of the frame loop makes exactly one setter call on a shader that is
not active: `CurrentShader->SetUniform3f("uPointLight.Position", ...)` at
main.cpp:376, issued on `PhongShaderMaterialTexture` after
`glUseProgram(ColorShader.GetId())` at main.cpp:367.  After the setup block and `n`
iterations there are `n` such calls. -/
theorem frame_setter_on_inactive_program (GetId : Shader → Nat)
    (hdistinct : GetId Shader.ColorShader ≠ GetId Shader.PhongShaderMaterialTexture)
    (active n : Nat) :
    violations GetId active (setupCalls GetId) = [] ∧
    violations GetId active (frameCalls GetId)
      = [GLCall.SetUniform3f Shader.PhongShaderMaterialTexture "uPointLight.Position"] ∧
    violations GetId active (mainCalls GetId n)
      = List.replicate n
          (GLCall.SetUniform3f Shader.PhongShaderMaterialTexture "uPointLight.Position") := by
  refine ⟨(setupCalls_ok GetId active).1, (frameCalls_violation GetId hdistinct active).1, ?_⟩
  unfold mainCalls
  rw [violations_append, (setupCalls_ok GetId active).1, (setupCalls_ok GetId active).2,
    List.nil_append]
  induction n with
  | zero => simp [violations]
  | succ k ih =>
    rw [List.replicate_succ, List.flatten_cons, violations_append,
      (frameCalls_violation GetId hdistinct 0).1, (frameCalls_violation GetId hdistinct 0).2, ih]
    rfl

/-- C4, with program ids 1 (`ColorShader`) and 2 (`PhongShaderMaterialTexture`),
program 0 active on entry, one iteration. -/
theorem frame_setter_on_inactive_program_witness :
    violations (fun s => if s = Shader.ColorShader then 1 else 2) 0
        (frameCalls (fun s => if s = Shader.ColorShader then 1 else 2))
      = [GLCall.SetUniform3f Shader.PhongShaderMaterialTexture "uPointLight.Position"] :=
  (frame_setter_on_inactive_program (fun s => if s = Shader.ColorShader then 1 else 2)
    (by decide) 0 1).2.1

/-! ## Animation and model matrices -/

/-- C5 (the point light is not animated): a frame leaves `Angle + State.mDT` in
`Angle`; the spotlight, first island and penguin positions have a z coordinate
`offset + 4 * sin(angle)` (the spotlight with the angle on entry, the other two
with the advanced angle); `PointLightPosition` is the constant `(0, 5.5, 2)`, the
same in any two frames whatever their angles. -/
theorem frame_animation (sin cos : ℚ → ℚ) (Angle mDT Angle2 mDT2 : ℚ) :
    (frame sin cos Angle mDT).Angle = Angle + mDT ∧
    (frame sin cos Angle mDT).SpotLightPosition = ⟨4 / 10, 2, 2 + 4 * sin Angle⟩ ∧
    (frame sin cos Angle mDT).IslandPosition
      = ⟨4 / 10, -(19 / 10), 4 + 4 * sin (Angle + mDT)⟩ ∧
    (frame sin cos Angle mDT).PenguinMove
      = ⟨4 / 10, -(15 / 10), 4 + 4 * sin (Angle + mDT)⟩ ∧
    (frame sin cos Angle mDT).PointLightPosition = ⟨0, 55 / 10, 2⟩ ∧
    (frame sin cos Angle mDT).PointLightPosition
      = (frame sin cos Angle2 mDT2).PointLightPosition := by
  refine ⟨rfl, ?_, ?_, ?_, rfl, rfl⟩ <;>
    simp only [frame, Distance, glm.vec3.mk.injEq] <;> norm_num

/-- C6: in every frame, with `A = Angle + State.mDT` the advanced angle, the three
cube model matrices are `scale(translate(identity, p), s)` with translation
components `(0.1 * 4, -1.9, 4 + 4 * sin A)`, `(4 * cos A, -1.9, -4 + 0.2 * 4)`
and `(0.2, -2.8, 4)`; scaling never alters the translation component, a
translate of the identity has its vector as translation component; the three
matrices are pairwise distinct. -/
theorem model_matrices_translate_then_scale (sin cos : ℚ → ℚ) (Angle mDT : ℚ) :
    ((frame sin cos Angle mDT).ModelMatrix
        = glm.scale (glm.translate glm.mat4.identity
            ⟨1 / 10 * Distance, -(19 / 10), 4 + Distance * sin (Angle + mDT)⟩)
            ⟨8, 4 / 10, 32 / 10⟩ ∧
      (frame sin cos Angle mDT).ModelMatrix1
        = glm.scale (glm.translate glm.mat4.identity
            ⟨Distance * cos (Angle + mDT), -(19 / 10), -4 + 2 / 10 * Distance⟩)
            ⟨7, 4 / 10, 28 / 10⟩ ∧
      (frame sin cos Angle mDT).ModelMatrix2
        = glm.scale (glm.translate glm.mat4.identity ⟨2 / 10, -(28 / 10), 4⟩)
            ⟨20, 12 / 10, 18⟩) ∧
    ((frame sin cos Angle mDT).ModelMatrix.translation
        = ⟨1 / 10 * 4, -(19 / 10), 4 + 4 * sin (Angle + mDT)⟩ ∧
      (frame sin cos Angle mDT).ModelMatrix1.translation
        = ⟨4 * cos (Angle + mDT), -(19 / 10), -4 + 2 / 10 * 4⟩ ∧
      (frame sin cos Angle mDT).ModelMatrix2.translation = ⟨2 / 10, -(28 / 10), 4⟩) ∧
    ((∀ (m : glm.mat4) (v : glm.vec3), (glm.scale m v).translation = m.translation) ∧
      (∀ p : glm.vec3, (glm.translate glm.mat4.identity p).translation = p)) ∧
    ((frame sin cos Angle mDT).ModelMatrix ≠ (frame sin cos Angle mDT).ModelMatrix1 ∧
      (frame sin cos Angle mDT).ModelMatrix ≠ (frame sin cos Angle mDT).ModelMatrix2 ∧
      (frame sin cos Angle mDT).ModelMatrix1 ≠ (frame sin cos Angle mDT).ModelMatrix2) := by
  refine ⟨⟨?_, ?_, ?_⟩, ⟨?_, ?_, ?_⟩, ⟨fun m v => rfl, ?_⟩, ⟨?_, ?_, ?_⟩⟩
  · simp only [frame, Distance]; norm_num
  · simp only [frame, Distance]; norm_num
  · rfl
  · simp only [frame, Distance, glm.scale, glm.translate, glm.mat4.identity,
      glm.mat4.translation, glm.vec4.smul, glm.vec4.add, glm.vec3.mk.injEq]
    norm_num
  · simp only [frame, Distance, glm.scale, glm.translate, glm.mat4.identity,
      glm.mat4.translation, glm.vec4.smul, glm.vec4.add, glm.vec3.mk.injEq]
    norm_num
  · simp only [frame, Distance, glm.scale, glm.translate, glm.mat4.identity,
      glm.mat4.translation, glm.vec4.smul, glm.vec4.add, glm.vec3.mk.injEq]
    norm_num
  · intro p
    simp only [glm.translate, glm.mat4.identity, glm.mat4.translation, glm.vec4.smul,
      glm.vec4.add]
    cases p
    simp
  · intro h
    have h0 := congrArg (fun m : glm.mat4 => m.c0.x) h
    simp only [frame, glm.scale, glm.translate, glm.mat4.identity, glm.vec4.smul] at h0
    norm_num at h0
  · intro h
    have h0 := congrArg (fun m : glm.mat4 => m.c0.x) h
    simp only [frame, glm.scale, glm.translate, glm.mat4.identity, glm.vec4.smul] at h0
    norm_num at h0
  · intro h
    have h0 := congrArg (fun m : glm.mat4 => m.c0.x) h
    simp only [frame, glm.scale, glm.translate, glm.mat4.identity, glm.vec4.smul] at h0
    norm_num at h0

/-! ## Rounding to `float` -/

/-- The rounded integer is within one half of the value. -/
theorem roundHalfEven_near (m : ℚ) :
    (roundHalfEven m : ℚ) - 1 / 2 ≤ m ∧ m ≤ roundHalfEven m + 1 / 2 := by
  have h1 := Int.floor_le m
  have h2 := Int.lt_floor_add_one m
  unfold roundHalfEven
  split_ifs <;> push_cast <;> constructor <;> linarith

/-- Rounding to an integer is monotone. -/
theorem roundHalfEven_mono {m n : ℚ} (h : m ≤ n) : roundHalfEven m ≤ roundHalfEven n := by
  rcases eq_or_lt_of_le h with heq | hlt
  · rw [heq]
  · by_contra hc
    have hc' : roundHalfEven n + 1 ≤ roundHalfEven m := by omega
    have hq : ((roundHalfEven n : ℤ) : ℚ) + 1 ≤ roundHalfEven m := by exact_mod_cast hc'
    have hm := (roundHalfEven_near m).1
    have hn := (roundHalfEven_near n).2
    linarith

/-- An integer rounds to itself. -/
theorem roundHalfEven_intCast (k : ℤ) : roundHalfEven (k : ℚ) = k := by
  simp [roundHalfEven]

/-- The `float` nearest to a non-negative value is non-negative. -/
theorem toFloatAbs_nonneg {a : ℚ} (h : 0 ≤ a) : 0 ≤ toFloatAbs a := by
  unfold toFloatAbs
  have hu : (0 : ℚ) < 2 ^ (floatExponent a - 23) := zpow_pos (by norm_num) _
  have h0 : (0 : ℤ) ≤ roundHalfEven (a / 2 ^ (floatExponent a - 23)) := by
    have := roundHalfEven_mono (div_nonneg h hu.le)
    rwa [show roundHalfEven 0 = 0 from by simpa using roundHalfEven_intCast 0] at this
  have h0' : (0 : ℚ) ≤ roundHalfEven (a / 2 ^ (floatExponent a - 23)) := by exact_mod_cast h0
  positivity

/-- Rounding does not leave the binade upwards: the result is at most
`2^(e + 1)`. -/
theorem toFloatAbs_le_pow {a : ℚ} : toFloatAbs a ≤ 2 ^ (floatExponent a + 1) := by
  have hu : (0 : ℚ) < 2 ^ (floatExponent a - 23) := zpow_pos (by norm_num) _
  have hlt : a < 2 ^ (floatExponent a + 1) := by
    have h1 : a < (2 : ℚ) ^ (Int.log 2 a + 1) := by
      simpa using Int.lt_zpow_succ_log_self (b := 2) (by norm_num) a
    have h2 : (2 : ℚ) ^ (Int.log 2 a + 1) ≤ 2 ^ (floatExponent a + 1) :=
      zpow_le_zpow_right₀ (by norm_num) (by unfold floatExponent; omega)
    linarith
  have key : ((16777216 : ℤ) : ℚ) * 2 ^ (floatExponent a - 23) = 2 ^ (floatExponent a + 1) := by
    rw [show floatExponent a + 1 = 24 + (floatExponent a - 23) by ring,
      zpow_add₀ (by norm_num : (2 : ℚ) ≠ 0)]
    norm_num
  have hq : a / 2 ^ (floatExponent a - 23) ≤ ((16777216 : ℤ) : ℚ) := by
    rw [div_le_iff₀ hu]
    linarith
  have hr := roundHalfEven_mono hq
  rw [roundHalfEven_intCast] at hr
  have hr' : ((roundHalfEven (a / 2 ^ (floatExponent a - 23)) : ℤ) : ℚ)
      ≤ ((16777216 : ℤ) : ℚ) := by exact_mod_cast hr
  unfold toFloatAbs
  rw [← key]
  exact mul_le_mul_of_nonneg_right hr' hu.le

/-- Rounding does not leave the binade downwards: a normal value rounds to at
least `2^e`. -/
theorem pow_le_toFloatAbs {b : ℚ} (hb : 0 < b) (he : floatExponent b = Int.log 2 b) :
    2 ^ floatExponent b ≤ toFloatAbs b := by
  have hu : (0 : ℚ) < 2 ^ (floatExponent b - 23) := zpow_pos (by norm_num) _
  have hle : (2 : ℚ) ^ floatExponent b ≤ b := by
    rw [he]
    simpa using Int.zpow_log_le_self (b := 2) (by norm_num) hb
  have key : ((8388608 : ℤ) : ℚ) * 2 ^ (floatExponent b - 23) = 2 ^ floatExponent b := by
    conv_rhs => rw [show floatExponent b = 23 + (floatExponent b - 23) by ring]
    rw [zpow_add₀ (by norm_num : (2 : ℚ) ≠ 0)]
    norm_num
  have hq : ((8388608 : ℤ) : ℚ) ≤ b / 2 ^ (floatExponent b - 23) := by
    rw [le_div_iff₀ hu]
    linarith
  have hr := roundHalfEven_mono hq
  rw [roundHalfEven_intCast] at hr
  have hr' : ((8388608 : ℤ) : ℚ)
      ≤ ((roundHalfEven (b / 2 ^ (floatExponent b - 23)) : ℤ) : ℚ) := by exact_mod_cast hr
  unfold toFloatAbs
  rw [← key]
  exact mul_le_mul_of_nonneg_right hr' hu.le

/-- Rounding a non-negative value to `float` is monotone. -/
theorem toFloatAbs_mono {a b : ℚ} (ha : 0 ≤ a) (hab : a ≤ b) : toFloatAbs a ≤ toFloatAbs b := by
  rcases eq_or_lt_of_le ha with h0 | hpos
  · have hz : toFloatAbs a = 0 := by
      rw [← h0]; simp [toFloatAbs, roundHalfEven]
    rw [hz]
    exact toFloatAbs_nonneg (ha.trans hab)
  · have hlog : Int.log 2 a ≤ Int.log 2 b := Int.log_mono_right hpos hab
    have hexp : floatExponent a ≤ floatExponent b := by
      unfold floatExponent; omega
    rcases eq_or_lt_of_le hexp with heq | hlt
    · unfold toFloatAbs
      rw [heq]
      have hu : (0 : ℚ) < 2 ^ (floatExponent b - 23) := zpow_pos (by norm_num) _
      have hr := roundHalfEven_mono (div_le_div_of_nonneg_right hab hu.le)
      have hr' : ((roundHalfEven (a / 2 ^ (floatExponent b - 23)) : ℤ) : ℚ)
          ≤ roundHalfEven (b / 2 ^ (floatExponent b - 23)) := by exact_mod_cast hr
      exact mul_le_mul_of_nonneg_right hr' hu.le
    · have he : floatExponent b = Int.log 2 b := by
        unfold floatExponent at hlt ⊢; omega
      calc toFloatAbs a ≤ 2 ^ (floatExponent a + 1) := toFloatAbs_le_pow
        _ ≤ 2 ^ floatExponent b := zpow_le_zpow_right₀ (by norm_num) (by omega)
        _ ≤ toFloatAbs b := pow_le_toFloatAbs (hpos.trans_le hab) he

/-- Zero is a `float`. -/
theorem toFloat_zero : toFloat 0 = 0 := by
  simp [toFloat, toFloatAbs, roundHalfEven]

/-- Rounding to `float` is monotone. -/
theorem toFloat_mono : Monotone toFloat := by
  intro x y hxy
  unfold toFloat
  split_ifs with hx hy hy
  · exact neg_le_neg (toFloatAbs_mono (by linarith) (by linarith))
  · have h1 := toFloatAbs_nonneg (a := -x) (by linarith)
    have h2 := toFloatAbs_nonneg (a := y) (by linarith)
    linarith
  · exfalso; linarith
  · exact toFloatAbs_mono (by linarith) hxy

/-- The exponent of a normal value, from the binade that holds it. -/
theorem floatExponent_eq {a : ℚ} (e : ℤ) (h1 : 2 ^ e ≤ a) (h2 : a < 2 ^ (e + 1))
    (he : -126 ≤ e) : floatExponent a = e := by
  have hpos : 0 < a := lt_of_lt_of_le (zpow_pos (by norm_num) e) h1
  have hle : e ≤ Int.log 2 a := (Int.zpow_le_iff_le_log (by norm_num) hpos).mp (by simpa using h1)
  have hlt : Int.log 2 a < e + 1 :=
    (Int.lt_zpow_iff_log_lt (by norm_num) hpos).mp (by simpa using h2)
  unfold floatExponent
  omega

/-- The `float` nearest to a non-negative normal value, from the binade that
holds it. -/
theorem toFloat_eq_of_exponent {q r : ℚ} (hq : 0 ≤ q) (e : ℤ) (h1 : 2 ^ e ≤ q)
    (h2 : q < 2 ^ (e + 1)) (he : -126 ≤ e)
    (hr : (roundHalfEven (q / 2 ^ (e - 23)) : ℚ) * 2 ^ (e - 23) = r) : toFloat q = r := by
  unfold toFloat toFloatAbs
  rw [if_neg (not_lt.mpr hq), floatExponent_eq e h1 h2 he]
  exact hr

/-- Truncation toward zero is monotone. -/
theorem toInt_mono {x y : ℚ} (h : x ≤ y) : toInt x ≤ toInt y := by
  unfold toInt
  split_ifs with hx hy hy
  · exact Int.floor_mono h
  · exfalso; linarith
  · have h1 : ⌈x⌉ ≤ 0 := Int.ceil_le.mpr (by push_cast; linarith)
    have h2 : 0 ≤ ⌊y⌋ := Int.floor_nonneg.mpr hy
    omega
  · exact Int.ceil_mono h

/-- Truncation of a non-negative value is non-negative and not above it. -/
theorem toInt_of_nonneg {q : ℚ} (h : 0 ≤ q) : 0 ≤ toInt q ∧ (toInt q : ℚ) ≤ q := by
  unfold toInt
  rw [if_pos h]
  exact ⟨Int.floor_nonneg.mpr h, Int.floor_le q⟩

/-! ## Time management -/

/-- C1 as stated fails on the program as compiled (`fl = toFloat`).
First input: `StartTime = 0`, the clock reads 0.005 s at the end of the work and
`0.005 + d/1000` after a sleep of `d` milliseconds (monotonic clock, the sleep
lasts exactly what was asked): `WorkTime < TargetFrameTime`, the block asks for
11 ms and emits `dt = float(0.016)`, below `TargetFrameTime`.
Second input: the clock reads `16384 + 2^-10 + 2^-20` at the start of the frame,
`5/1024` s more at the end of the work and `25/2048` s more (12.2 ms) after the
sleep: the block asks for 12 ms and emits `dt = 0.015625`, below
`TargetFrameTime - 0.001`. -/
theorem timeManagement_light_frame_below_target :
    (WorkTime toFloat (toFloat 0) (1 / 200) < TargetFrameTime toFloat ∧
      (∀ d : Int, 0 ≤ d →
        (1 / 200 : ℚ) + d / 1000 ≤ (fun d : Int => (1 / 200 : ℚ) + d / 1000) d) ∧
      (timeManagement toFloat (toFloat 0) (1 / 200) (fun d => 1 / 200 + d / 1000)).DeltaMS
        = some 11 ∧
      (timeManagement toFloat (toFloat 0) (1 / 200) (fun d => 1 / 200 + d / 1000)).mDT
        = 8589935 / 536870912 ∧
      TargetFrameTime toFloat = 8947849 / 536870912 ∧
      ¬ (TargetFrameTime toFloat
          ≤ (timeManagement toFloat (toFloat 0) (1 / 200)
              (fun d => 1 / 200 + d / 1000)).mDT)) ∧
    (WorkTime toFloat (toFloat (16384 + 1 / 1024 + 1 / 1048576))
        (16384 + 1 / 1024 + 1 / 1048576 + 5 / 1024) < TargetFrameTime toFloat ∧
      (timeManagement toFloat (toFloat (16384 + 1 / 1024 + 1 / 1048576))
        (16384 + 1 / 1024 + 1 / 1048576 + 5 / 1024)
        (fun _ => 16384 + 1 / 1024 + 1 / 1048576 + 5 / 1024 + 25 / 2048)).DeltaMS = some 12 ∧
      (16384 + 1 / 1024 + 1 / 1048576 + 5 / 1024 + 12 / 1000 : ℚ)
        ≤ 16384 + 1 / 1024 + 1 / 1048576 + 5 / 1024 + 25 / 2048 ∧
      (timeManagement toFloat (toFloat (16384 + 1 / 1024 + 1 / 1048576))
        (16384 + 1 / 1024 + 1 / 1048576 + 5 / 1024)
        (fun _ => 16384 + 1 / 1024 + 1 / 1048576 + 5 / 1024 + 25 / 2048)).mDT = 1 / 64 ∧
      (1 / 64 : ℚ) < TargetFrameTime toFloat - 1 / 1000) := by
  have h0 : toFloat (16384 + 1 / 1024 + 1 / 1048576) = 8388609 / 512 :=
    toFloat_eq_of_exponent (by norm_num) 14 (by norm_num) (by norm_num) (by norm_num)
      (by decide!)
  have h1 : toFloat (16384 + 1 / 1024 + 1 / 1048576 + 5 / 1024) = 8388611 / 512 :=
    toFloat_eq_of_exponent (by norm_num) 14 (by norm_num) (by norm_num) (by norm_num)
      (by decide!)
  have h2 : toFloat (16384 + 1 / 1024 + 1 / 1048576 + 5 / 1024 + 25 / 2048) = 8388617 / 512 :=
    toFloat_eq_of_exponent (by norm_num) 14 (by norm_num) (by norm_num) (by norm_num)
      (by decide!)
  refine ⟨⟨by decide!, fun d _ => le_refl _, by decide!, by decide!, by decide!, by decide!⟩,
    ?_⟩
  simp only [timeManagement, WorkTime, DeltaMS, h0, h1, h2]
  refine ⟨by decide!, ?_, by norm_num, ?_, by decide!⟩
  · rw [if_pos (by decide!)]
    decide!
  · rw [if_pos (by decide!)]
    simp only [h2]
    decide!

/-- C1, amended: let `fl`, the rounding to `float`, be monotone with `fl 0 = 0`
(as `toFloat` is).  In a light frame (`WorkTime < TargetFrameTime`), when the
clock after a sleep of `d ≥ 0` milliseconds reads at least `d/1000` s more than
before it, the block asks for a sleep of `DeltaMS = (int)((TargetFrameTime -
WorkTime) * 1000.0f)` whole milliseconds, `0 ≤ DeltaMS`, samples the clock again
and emits `dt = float(EndTime - StartTime)` from the new sample; that `dt` is at
least what a sleep of exactly `DeltaMS` ms would have given, and at least
`WorkTime`.  When `StartTime` is not after `EndTime`, `DeltaMS` is at most the
whole milliseconds of `TargetFrameTime` (16 for `toFloat`). -/
theorem timeManagement_light_frame (fl : ℚ → ℚ) (hmono : Monotone fl) (hzero : fl 0 = 0)
    (StartTime now : ℚ) (after : Int → ℚ)
    (hlight : WorkTime fl StartTime now < TargetFrameTime fl)
    (hsleep : ∀ d : Int, 0 ≤ d → now + d / 1000 ≤ after d) :
    ((timeManagement fl StartTime now after).DeltaMS = some (DeltaMS fl StartTime now) ∧
      0 ≤ DeltaMS fl StartTime now ∧
      (StartTime ≤ fl now →
        DeltaMS fl StartTime now ≤ toInt (fl (fl (TargetFrameTime fl) * 1000)))) ∧
    ((timeManagement fl StartTime now after).EndTime = fl (after (DeltaMS fl StartTime now)) ∧
      (timeManagement fl StartTime now after).mDT
        = fl (fl (after (DeltaMS fl StartTime now)) - StartTime)) ∧
    (fl (fl (now + (DeltaMS fl StartTime now : ℚ) / 1000) - StartTime)
        ≤ (timeManagement fl StartTime now after).mDT ∧
      WorkTime fl StartTime now ≤ (timeManagement fl StartTime now after).mDT) := by
  have hpos : 0 ≤ fl (fl (TargetFrameTime fl - WorkTime fl StartTime now) * 1000) := by
    have h1 : 0 ≤ fl (TargetFrameTime fl - WorkTime fl StartTime now) := by
      rw [← hzero]; exact hmono (sub_nonneg.mpr hlight.le)
    rw [← hzero]
    exact hmono (by positivity)
  have hD : 0 ≤ DeltaMS fl StartTime now := (toInt_of_nonneg hpos).1
  have hDq : (0 : ℚ) ≤ (DeltaMS fl StartTime now : ℚ) := by exact_mod_cast hD
  have hs := hsleep _ hD
  have hexact : fl (fl (now + (DeltaMS fl StartTime now : ℚ) / 1000) - StartTime)
      ≤ fl (fl (after (DeltaMS fl StartTime now)) - StartTime) :=
    hmono (sub_le_sub_right (hmono hs) _)
  have hwork : WorkTime fl StartTime now
      ≤ fl (fl (now + (DeltaMS fl StartTime now : ℚ) / 1000) - StartTime) :=
    hmono (sub_le_sub_right (hmono (by linarith [div_nonneg hDq (by norm_num : (0:ℚ) ≤ 1000)])) _)
  have htm : timeManagement fl StartTime now after
      = ⟨some (DeltaMS fl StartTime now), fl (after (DeltaMS fl StartTime now)),
         fl (fl (after (DeltaMS fl StartTime now)) - StartTime)⟩ := by
    simp only [timeManagement, if_pos hlight]
  rw [htm]
  refine ⟨⟨rfl, hD, ?_⟩, ⟨rfl, rfl⟩, ⟨hexact, hwork.trans hexact⟩⟩
  intro hclock
  have hw : 0 ≤ WorkTime fl StartTime now := by
    rw [← hzero]; exact hmono (sub_nonneg.mpr hclock)
  exact toInt_mono (hmono (mul_le_mul_of_nonneg_right
    (hmono (sub_le_self _ hw)) (by norm_num)))

/-- C1 amended, on the program as compiled, at `StartTime = 0`, work 0.005 s, a
sleep that lasts exactly what was asked: 11 ms are requested and `dt` is not
below `WorkTime`. -/
theorem timeManagement_light_frame_witness :
    WorkTime toFloat (toFloat 0) (1 / 200) < TargetFrameTime toFloat ∧
    (timeManagement toFloat (toFloat 0) (1 / 200) (fun d => 1 / 200 + d / 1000)).DeltaMS
      = some (DeltaMS toFloat (toFloat 0) (1 / 200)) ∧
    DeltaMS toFloat (toFloat 0) (1 / 200) = 11 ∧
    toInt (toFloat (toFloat (TargetFrameTime toFloat) * 1000)) = 16 ∧
    WorkTime toFloat (toFloat 0) (1 / 200)
      ≤ (timeManagement toFloat (toFloat 0) (1 / 200) (fun d => 1 / 200 + d / 1000)).mDT :=
  ⟨by decide!,
   (timeManagement_light_frame toFloat toFloat_mono toFloat_zero (toFloat 0) (1 / 200)
      (fun d => 1 / 200 + d / 1000) (by decide!) (fun _ _ => le_refl _)).1.1,
   by decide!,
   by decide!,
   (timeManagement_light_frame toFloat toFloat_mono toFloat_zero (toFloat 0) (1 / 200)
      (fun d => 1 / 200 + d / 1000) (by decide!) (fun _ _ => le_refl _)).2.2.2⟩

/-- C8: in a heavy frame (`TargetFrameTime ≤ WorkTime`) the block asks for no
sleep, keeps the `EndTime` it sampled, and emits `dt = WorkTime = EndTime -
StartTime`, whatever its size.  This holds for every rounding `fl`: for
`toFloat`, the program as compiled, and for the identity, exact arithmetic. -/
theorem timeManagement_heavy_frame (fl : ℚ → ℚ) (StartTime now : ℚ) (after : Int → ℚ)
    (hheavy : TargetFrameTime fl ≤ WorkTime fl StartTime now) :
    (timeManagement fl StartTime now after).DeltaMS = none ∧
    (timeManagement fl StartTime now after).EndTime = fl now ∧
    (timeManagement fl StartTime now after).mDT = WorkTime fl StartTime now ∧
    (timeManagement fl StartTime now after).mDT = fl (fl now - StartTime) := by
  have htm : timeManagement fl StartTime now after
      = ⟨none, fl now, fl (fl now - StartTime)⟩ := by
    simp only [timeManagement, if_neg (not_lt.mpr hheavy)]
  rw [htm]
  exact ⟨rfl, rfl, rfl, rfl⟩

/-- C8, at `StartTime = 0` and work 0.03 s: in exact arithmetic `dt = 0.03 s`, on
the program as compiled `dt = float(0.03)`; no sleep in either. -/
theorem timeManagement_heavy_frame_witness :
    (TargetFrameTime id ≤ (3 / 100 : ℚ) - 0 ∧
      (timeManagement id 0 (3 / 100) (fun _ => 0)).DeltaMS = none ∧
      (timeManagement id 0 (3 / 100) (fun _ => 0)).mDT = 3 / 100) ∧
    (TargetFrameTime toFloat ≤ WorkTime toFloat (toFloat 0) (3 / 100) ∧
      (timeManagement toFloat (toFloat 0) (3 / 100) (fun _ => 0)).DeltaMS = none ∧
      (timeManagement toFloat (toFloat 0) (3 / 100) (fun _ => 0)).mDT
        = 16106127 / 536870912) :=
  ⟨⟨by norm_num [TargetFrameTime, TargetFPS],
    (timeManagement_heavy_frame id 0 (3 / 100) (fun _ => 0)
      (by norm_num [TargetFrameTime, TargetFPS, WorkTime])).1,
    ((timeManagement_heavy_frame id 0 (3 / 100) (fun _ => 0)
      (by norm_num [TargetFrameTime, TargetFPS, WorkTime])).2.2.2).trans (by norm_num)⟩,
   ⟨by decide!,
    (timeManagement_heavy_frame toFloat (toFloat 0) (3 / 100) (fun _ => 0) (by decide!)).1,
    ((timeManagement_heavy_frame toFloat (toFloat 0) (3 / 100) (fun _ => 0)
      (by decide!)).2.2.2).trans (by decide!)⟩⟩

/-! ## The cube vertex table -/

/-- Scaling a vector by 1. -/
theorem vec3_smul_one (v : glm.vec3) : v.smul 1 = v := by
  cases v
  simp [glm.vec3.smul]

/-- The table, checked row by row: size, coordinates, and for each triangle the
face normal, the stored normals and the face the triangle lies in. -/
theorem CubeVertices_checked :
    CubeVertices.length = 288 ∧ cubeDrawCount = 36 ∧
    (∀ i, i < 36 →
      (vertexPosition i).x ∈ [-1 / 2, 1 / 2] ∧ (vertexPosition i).y ∈ [-1 / 2, 1 / 2] ∧
      (vertexPosition i).z ∈ [(-1 / 2 : ℚ), 1 / 2]) ∧
    ∀ t, t < 12 →
      faceNormal t = vertexNormal (3 * t) ∧
      vertexNormal (3 * t + 1) = vertexNormal (3 * t) ∧
      vertexNormal (3 * t + 2) = vertexNormal (3 * t) ∧
      vertexNormal (3 * t) ∈ axisDirections ∧
      glm.dot (vertexPosition (3 * t)) (vertexNormal (3 * t)) = 1 / 2 ∧
      glm.dot (vertexPosition (3 * t + 1)) (vertexNormal (3 * t)) = 1 / 2 ∧
      glm.dot (vertexPosition (3 * t + 2)) (vertexNormal (3 * t)) = 1 / 2 := by
  decide!

/-- C10: `CubeVertices` holds 288 scalars, 36 vertices of 8, so the computed draw
count `CubeVertices.size() / 8` is the hard-coded 36; every coordinate of every
vertex is `-0.5` or `0.5`; and for each of the 12 triangles `(v0, v1, v2)` the
face normal `cross(v1 - v0, v2 - v0)` is a positive multiple of the normal
stored in `v0`, the three stored normals are equal, that normal is a unit axis
direction `n`, and the three vertices lie in the face of the cube whose outward
direction is `n` (`dot(v, n) = 0.5`). -/
theorem CubeVertices_well_formed :
    (CubeVertices.length = 288 ∧ CubeVertices.length = 36 * 8 ∧
      cubeDrawCount = 36 ∧ cubeDrawCount = markerDrawCount) ∧
    (∀ i, i < 36 →
      (vertexPosition i).x ∈ [-1 / 2, 1 / 2] ∧ (vertexPosition i).y ∈ [-1 / 2, 1 / 2] ∧
      (vertexPosition i).z ∈ [(-1 / 2 : ℚ), 1 / 2]) ∧
    ∀ t, t < 12 →
      (∃ k : ℚ, 0 < k ∧ faceNormal t = (vertexNormal (3 * t)).smul k) ∧
      (vertexNormal (3 * t + 1) = vertexNormal (3 * t) ∧
        vertexNormal (3 * t + 2) = vertexNormal (3 * t)) ∧
      vertexNormal (3 * t) ∈ axisDirections ∧
      (glm.dot (vertexPosition (3 * t)) (vertexNormal (3 * t)) = 1 / 2 ∧
        glm.dot (vertexPosition (3 * t + 1)) (vertexNormal (3 * t)) = 1 / 2 ∧
        glm.dot (vertexPosition (3 * t + 2)) (vertexNormal (3 * t)) = 1 / 2) := by
  obtain ⟨hlen, hcount, hcoord, htri⟩ := CubeVertices_checked
  refine ⟨⟨hlen, hlen, hcount, hcount⟩, hcoord, ?_⟩
  intro t ht
  obtain ⟨hf, h1, h2, hax, d0, d1, d2⟩ := htri t ht
  exact ⟨⟨1, one_pos, by rw [vec3_smul_one]; exact hf⟩, ⟨h1, h2⟩, hax, ⟨d0, d1, d2⟩⟩

/-- C10, at triangle 7 (the second triangle of the bottom side): its face normal
is a positive multiple of the stored normal `(0, -1, 0)`. -/
theorem CubeVertices_well_formed_witness :
    vertexNormal (3 * 7) = ⟨0, -1, 0⟩ ∧
    ∃ k : ℚ, 0 < k ∧ faceNormal 7 = (vertexNormal (3 * 7)).smul k :=
  ⟨by decide!, (CubeVertices_well_formed.2.2 7 (by decide)).1⟩

end Phong
